import Mathlib

/-!
Verification of the `logs` logging subsystem of the llmrc repository
(`cpp-app/include/` logging header, namespace `logs`).

The embedding models the C++ code at the level of strings and explicit
state.  Machine strings are modelled as Lean `String`s (the log levels,
timestamps and message bodies used by the program are ASCII, so C byte
counts coincide with character counts in the model).  File-system effects
are modelled by a map from file path to the list of lines appended to
that file, and success or failure of `std::ofstream` open (including a
prior failed directory creation, which makes the subsequent open fail)
is modelled by an environment `openOk : String → Bool`.  The ambient
clock (`getTimeString`) and the ambient `errno` enrichment of verbose
builds are modelled as explicit parameters (`ts`, `errSuffix`).
-/

namespace logs

/-- Model of `LLMRC_PRINTD_BUF_SIZE` (4096), the `vsnprintf` buffer size of
`COUT_`. -/
def LLMRC_PRINTD_BUF_SIZE : Nat := 4096

/-- Model of `LOG_OUTPUT_PATH` (`"./output"`), the fixed base output
directory of the logger. -/
def LOG_OUTPUT_PATH : String := "./output"

/-- Model of `EXIT_FAILURE`, the status passed to `std::exit` on a FATAL
log call. -/
def EXIT_FAILURE : Nat := 1

/-- The closed set of severities used by the `LLMRC_PRINT_I/E/F/D/W`
macros, which call `COUT_` with these literal level strings. -/
def severities : List String := ["INFO", "WARN", "ERROR", "DEBUG", "FATAL"]

/-- Model of `getLogFilePath(level)`:
`std::string(LOG_OUTPUT_PATH) + "/" + level + ".log"`.  The call to
`ensureDirectoryExists` it performs only touches the directory; its
possible failure is folded into the `openOk` environment of the callers. -/
def getLogFilePath (level : String) : String :=
  LOG_OUTPUT_PATH ++ "/" ++ level ++ ".log"

/-- Model of `log_entry.substr(1, log_entry.find(']') - 1)`, the level
extraction performed by `logThreadFunc` and `stopLogThread` on a queued
line.  When the first character is `']'` itself, `find` returns 0 and the
`size_t` length wraps to `npos`, so `substr` returns the whole remainder;
otherwise the characters strictly between index 0 and the first `']'`
(or to the end when there is none) are returned. -/
def extractLevel (entry : String) : String :=
  if entry.data.head? = some ']' then String.mk entry.data.tail
  else String.mk ((entry.data.takeWhile fun c => c != ']').drop 1)

/-- Model of the line layout built by `COUT_` into `logMsg`: with `_DEBUG`
the call site is included, otherwise it is omitted. -/
def renderLine (dbg : Bool) (level ts func : String) (line : Nat) (body : String) : String :=
  if dbg then
    "[" ++ level ++ "] [" ++ ts ++ "] (" ++ func ++ ":" ++ toString line ++ ") - " ++ body ++ "\n"
  else
    "[" ++ level ++ "] [" ++ ts ++ "] - " ++ body ++ "\n"

/-- Truncation to at most `n` characters, the effect of `vsnprintf` /
`strncat` bounds on the fixed `char buf[LLMRC_PRINTD_BUF_SIZE]`. -/
def truncateTo (n : Nat) (s : String) : String :=
  String.mk (s.data.take n)

/-- Model of the `strncat(buf, err_info, LLMRC_PRINTD_BUF_SIZE - strlen(buf) - 1)`
step of `COUT_` in `_DEBUG` builds. -/
def appendErr (buf suffix : String) : String :=
  buf ++ truncateTo (LLMRC_PRINTD_BUF_SIZE - 1 - buf.length) suffix

/-- The message body produced by `COUT_` before rendering: the
`vsnprintf`-formatted text truncated to the buffer, with the errno
information (`errSuffix`, possibly empty) appended in `_DEBUG` builds for
`ERROR`/`FATAL` levels. -/
def cbody (dbg : Bool) (log_level errSuffix formatted : String) : String :=
  let buf := truncateTo (LLMRC_PRINTD_BUF_SIZE - 1) formatted
  if dbg && (log_level == "ERROR" || log_level == "FATAL") then appendErr buf errSuffix
  else buf

/-- Shared mutable state of the subsystem: the running flag, whether the
background `std::thread` object is joinable, the queue contents, and the
lines so far appended to each file path. -/
structure LogState where
  log_thread_running : Bool
  joinable : Bool
  log_queue : List String
  files : String → List String

/-- The state at subsystem start: flag true, thread started (joinable),
queue empty, no file written yet. -/
def initState : LogState :=
  { log_thread_running := true, joinable := true, log_queue := [], files := fun _ => [] }

/-- Termination behaviour of a logging call: either control returns to
the caller, or the process exits with the given status. -/
inductive Outcome where
  | normal : Outcome
  | exited : Nat → Outcome
deriving DecidableEq

/-- Everything observable about one `COUT_` call: the state after the
call, the lines written to stdout and stderr, and whether the call
returned or exited the process. -/
structure CoutResult where
  state : LogState
  stdout : List String
  stderr : List String
  outcome : Outcome

/-- Model of `logs::COUT_(log_level, function, line, format_str, ...)`.
It formats the body into the bounded buffer, renders `logMsg`, appends it
synchronously to `getLogFilePath(log_level)` when the open succeeds
(skipping the write otherwise), echoes to stdout always and to stderr
exactly when the level string equals `"ERROR"`, and calls
`std::exit(EXIT_FAILURE)` exactly when it equals `"FATAL"`.  The queue is
not touched. -/
def COUT_ (dbg : Bool) (errSuffix : String) (openOk : String → Bool)
    (log_level func : String) (line : Nat) (ts formatted : String)
    (s : LogState) : CoutResult :=
  let body := cbody dbg log_level errSuffix formatted
  let logMsg := renderLine dbg log_level ts func line body
  let path := getLogFilePath log_level
  let files' : String → List String :=
    if openOk path then (fun p => if p = path then s.files p ++ [logMsg] else s.files p)
    else s.files
  { state := { s with files := files' }
    stdout := [logMsg]
    stderr := if log_level == "ERROR" then [logMsg] else []
    outcome := if log_level == "FATAL" then Outcome.exited EXIT_FAILURE else Outcome.normal }

/-- Persistence of one queued entry, as done by the drain loops of
`logThreadFunc` and `stopLogThread`: extract the level from the line,
resolve its file, and append when the open succeeds, silently skipping
the entry otherwise. -/
def persistEntry (openOk : String → Bool) (files : String → List String)
    (entry : String) : String → List String :=
  let path := getLogFilePath (extractLevel entry)
  if openOk path then (fun p => if p = path then files p ++ [entry] else files p)
  else files

/-- Model of `logs::stopLogThread()`: set `log_thread_running` to false,
notify, join the thread when joinable, then under the lock drain every
remaining queue entry synchronously through `persistEntry`. -/
def stopLogThread (openOk : String → Bool) (s : LogState) : LogState :=
  { log_thread_running := false
    joinable := false
    log_queue := []
    files := s.log_queue.foldl (persistEntry openOk) s.files }

/-- Model of the condition-variable predicate of `logThreadFunc`:
`!log_queue.empty() || !log_thread_running`.  The wait continues while
this is false. -/
def wakePredicate (q : List String) (running : Bool) : Bool :=
  !q.isEmpty || !running

/-- Atomic actions of the consumer thread, used to state its lock
discipline: acquiring/releasing `log_mutex`, popping an entry from
`log_queue`, and writing an entry to a file path. -/
inductive Action where
  | lock : Action
  | unlock : Action
  | pop : String → Action
  | write : String → String → Action
deriving DecidableEq

/-- The action sequence of the inner `while (!log_queue.empty())` loop of
`logThreadFunc`, for a queue holding `q`: each entry is popped under the
lock, the lock is released, the entry is written, and the lock is
re-acquired before the next entry. -/
def logThreadDrainTrace : List String → List Action
  | [] => []
  | e :: rest =>
      Action.pop e :: Action.unlock :: Action.write (getLogFilePath (extractLevel e)) e ::
        Action.lock :: logThreadDrainTrace rest

/-- The action sequence of one full wake of `logThreadFunc`: the
`unique_lock` acquisition on entry, the per-entry drain, and the scope
exit unlock. -/
def logThreadIterTrace (q : List String) : List Action :=
  Action.lock :: (logThreadDrainTrace q ++ [Action.unlock])

/-- The action sequence the specification describes for one wake: drain
the entire queue into a local batch under a single lock hold, release the
lock once, then write every entry. -/
def batchIterTrace (q : List String) : List Action :=
  Action.lock :: (q.map Action.pop ++
    (Action.unlock :: q.map fun e => Action.write (getLogFilePath (extractLevel e)) e))

/-- Whether an action list contains a pop. -/
def containsPop : List Action → Bool
  | [] => false
  | Action.pop _ :: _ => true
  | Action.lock :: rest => containsPop rest
  | Action.unlock :: rest => containsPop rest
  | Action.write _ _ :: rest => containsPop rest

/-- Whether no pop occurs after any write in the action list; a
batch-drain loop satisfies this, a per-entry loop does not. -/
def noPopAfterWrite : List Action → Bool
  | [] => true
  | Action.write _ _ :: rest => !containsPop rest && noPopAfterWrite rest
  | Action.lock :: rest => noPopAfterWrite rest
  | Action.unlock :: rest => noPopAfterWrite rest
  | Action.pop _ :: rest => noPopAfterWrite rest

/-- Tracking the lock through an action list starting from the given
held state: every pop must happen with the lock held and every write
with the lock released. -/
def writesUnlocked : Bool → List Action → Bool
  | _, [] => true
  | _, Action.lock :: rest => writesUnlocked true rest
  | _, Action.unlock :: rest => writesUnlocked false rest
  | held, Action.pop _ :: rest => held && writesUnlocked held rest
  | held, Action.write _ _ :: rest => !held && writesUnlocked held rest

/-- The file writes of an action list, in order. -/
def writeList : List Action → List (String × String)
  | [] => []
  | Action.write p e :: rest => (p, e) :: writeList rest
  | Action.lock :: rest => writeList rest
  | Action.unlock :: rest => writeList rest
  | Action.pop _ :: rest => writeList rest

end logs

namespace logs

/-- A `takeWhile` over characters different from `']'` stops exactly at the
first `']'` delimiter. -/
lemma takeWhile_ne_rbracket (l r : List Char) (h : ∀ c ∈ l, (c != ']') = true) :
    ((l ++ ']' :: r).takeWhile fun c => c != ']') = l := by
  induction l with
  | nil => simp [List.takeWhile_cons]
  | cons a t ih =>
      have ha := h a (by simp)
      simp [List.takeWhile_cons, ha, ih fun c hc => h c (by simp [hc])]

/-- The level extraction of the drain loops recovers the severity from a
line rendered by `COUT_`, for any level string free of `']'`. -/
lemma extractLevel_render (dbg : Bool) (level ts func body : String) (line : Nat)
    (h : ∀ c ∈ level.data, (c != ']') = true) :
    extractLevel (renderLine dbg level ts func line body) = level := by
  have hd : ∃ tail : List Char,
      (renderLine dbg level ts func line body).data = '[' :: (level.data ++ ']' :: tail) := by
    cases dbg with
    | false =>
        refine ⟨(" [" ++ ts ++ "] - " ++ body ++ "\n").data, ?_⟩
        show ("[" ++ level ++ "] [" ++ ts ++ "] - " ++ body ++ "\n").data = _
        have : ∀ a b : String, (a ++ b).data = a.data ++ b.data := fun a b => rfl
        simp only [this]
        simp
    | true =>
        refine ⟨(" [" ++ ts ++ "] (" ++ func ++ ":" ++ toString line ++ ") - " ++ body ++ "\n").data, ?_⟩
        show ("[" ++ level ++ "] [" ++ ts ++ "] (" ++ func ++ ":" ++ toString line ++ ") - " ++
          body ++ "\n").data = _
        have : ∀ a b : String, (a ++ b).data = a.data ++ b.data := fun a b => rfl
        simp only [this]
        simp
  obtain ⟨tail, hd⟩ := hd
  unfold extractLevel
  rw [hd]
  rw [if_neg (by simp)]
  rw [List.takeWhile_cons]
  simp only [show (('[' : Char) != ']') = true from rfl, if_pos]
  rw [takeWhile_ne_rbracket _ _ h]
  rfl

/-- Folding `persistEntry` over a queue appends, to every file, exactly the
queue entries routed to that file, in queue order, when every open
succeeds. -/
lemma foldl_persistEntry (openOk : String → Bool) (h : ∀ q, openOk q = true) :
    ∀ (q : List String) (files : String → List String) (p : String),
      q.foldl (persistEntry openOk) files p =
        files p ++ q.filter (fun e => getLogFilePath (extractLevel e) == p) := by
  intro q
  induction q with
  | nil => intro files p; simp
  | cons e t ih =>
      intro files p
      have hpe : persistEntry openOk files e =
          fun p' => if p' = getLogFilePath (extractLevel e) then files p' ++ [e] else files p' := by
        unfold persistEntry
        rw [if_pos (h _)]
      rw [List.foldl_cons, hpe, ih]
      by_cases hp : p = getLogFilePath (extractLevel e)
      · simp [hp, List.filter_cons]
      · have : (getLogFilePath (extractLevel e) == p) = false := by
          simp [beq_iff_eq]
          exact fun hh => hp hh.symm
        simp [hp, List.filter_cons, this]

/-- In the per-entry drain of `logThreadFunc`, every pop happens with the
lock held and every file write with the lock released. -/
lemma writesUnlocked_drain (q : List String) :
    writesUnlocked true (logThreadDrainTrace q ++ [Action.unlock]) = true := by
  induction q with
  | nil => rfl
  | cons e t ih => simpa [logThreadDrainTrace, writesUnlocked] using ih

/-- The per-entry drain of `logThreadFunc` writes the queue entries to
their resolved files in queue (FIFO) order. -/
lemma writeList_drain (q : List String) :
    writeList (logThreadDrainTrace q ++ [Action.unlock]) =
      q.map fun e => (getLogFilePath (extractLevel e), e) := by
  induction q with
  | nil => rfl
  | cons e t ih => simp [logThreadDrainTrace, writeList, ih]

/-- C1: after `stopLogThread` returns the queue is empty, and when every
file open succeeds each entry that was queued at shutdown has been
appended to the file of its own severity, in order, with none lost. -/
theorem c1_shutdown_drains_all (openOk : String → Bool) (s : LogState) (p : String)
    (h : ∀ q, openOk q = true) :
    (stopLogThread openOk s).log_queue = [] ∧
    (stopLogThread openOk s).files p =
      s.files p ++ s.log_queue.filter (fun e => getLogFilePath (extractLevel e) == p) :=
  ⟨rfl, foldl_persistEntry openOk h s.log_queue s.files p⟩

/-- Witness for C1: shutting down with two queued entries empties the
queue and appends the INFO entry to `./output/INFO.log`. -/
theorem c1_witness :
    (∀ q : String, (fun _ : String => true) q = true) ∧
    ((stopLogThread (fun _ => true)
        ⟨true, true, ["[INFO] [t] - a\n", "[WARN] [t] - b\n"], fun _ => []⟩).log_queue = [] ∧
     (stopLogThread (fun _ => true)
        ⟨true, true, ["[INFO] [t] - a\n", "[WARN] [t] - b\n"], fun _ => []⟩).files "./output/INFO.log" =
       (fun _ : String => ([] : List String)) "./output/INFO.log" ++
         ["[INFO] [t] - a\n", "[WARN] [t] - b\n"].filter
           (fun e => getLogFilePath (extractLevel e) == "./output/INFO.log")) :=
  ⟨fun _ => rfl,
   c1_shutdown_drains_all (fun _ => true)
     ⟨true, true, ["[INFO] [t] - a\n", "[WARN] [t] - b\n"], fun _ => []⟩
     "./output/INFO.log" (fun _ => rfl)⟩

/-- C2: a FATAL logging call always ends with `std::exit(EXIT_FAILURE)`,
a non-zero status, whatever the open/write environment did. -/
theorem c2_fatal_exits_nonzero (dbg : Bool) (errSuffix : String) (openOk : String → Bool)
    (func : String) (line : Nat) (ts formatted : String) (s : LogState) :
    (COUT_ dbg errSuffix openOk "FATAL" func line ts formatted s).outcome =
      Outcome.exited EXIT_FAILURE ∧ EXIT_FAILURE ≠ 0 :=
  ⟨rfl, by decide⟩

/-- C3 counterexample: an INFO call does not enqueue anything (the queue
is unchanged) and the calling thread itself performs the file write, so
the claim that INFO/DEBUG/WARN lines are enqueued and not written by the
caller is false. -/
theorem c3_counterexample :
    ¬ ((COUT_ false "" (fun _ => true) "INFO" "main" 1 "t" "hello" initState).state.log_queue ≠
         initState.log_queue ∧
       (COUT_ false "" (fun _ => true) "INFO" "main" 1 "t" "hello" initState).state.files
         (getLogFilePath "INFO") = initState.files (getLogFilePath "INFO")) := by decide

/-- C3 amended: every severity is persisted synchronously by the calling
thread (appending the rendered line when the open succeeds, skipping it
otherwise), and no call ever enqueues onto the message queue. -/
theorem c3_sync_write_no_enqueue (dbg : Bool) (errSuffix : String) (openOk : String → Bool)
    (log_level func : String) (line : Nat) (ts formatted : String) (s : LogState) :
    (COUT_ dbg errSuffix openOk log_level func line ts formatted s).state.log_queue = s.log_queue ∧
    (COUT_ dbg errSuffix openOk log_level func line ts formatted s).state.files
        (getLogFilePath log_level) =
      (if openOk (getLogFilePath log_level) then
        s.files (getLogFilePath log_level) ++
          [renderLine dbg log_level ts func line (cbody dbg log_level errSuffix formatted)]
       else s.files (getLogFilePath log_level)) := by
  refine ⟨rfl, ?_⟩
  unfold COUT_
  by_cases h : openOk (getLogFilePath log_level) = true <;> simp [h]

/-- C4 counterexample: a FATAL call writes nothing to stderr, so the
claim that stderr is written if and only if the severity is ERROR or
FATAL fails at severity FATAL. -/
theorem c4_counterexample :
    ¬ (((COUT_ false "" (fun _ => true) "FATAL" "main" 1 "t" "boom" initState).stderr ≠ []) ↔
       ("FATAL" = "ERROR" ∨ "FATAL" = "FATAL")) := by decide

/-- C4 amended: every call writes the rendered line to stdout, and writes
it to stderr if and only if the severity is ERROR (FATAL is echoed to
stdout only). -/
theorem c4_stdout_always_stderr_iff_error (dbg : Bool) (errSuffix : String) (openOk : String → Bool)
    (log_level func : String) (line : Nat) (ts formatted : String) (s : LogState) :
    (COUT_ dbg errSuffix openOk log_level func line ts formatted s).stdout =
      [renderLine dbg log_level ts func line (cbody dbg log_level errSuffix formatted)] ∧
    ((COUT_ dbg errSuffix openOk log_level func line ts formatted s).stderr ≠ [] ↔
      log_level = "ERROR") ∧
    (COUT_ dbg errSuffix openOk log_level func line ts formatted s).stderr =
      (if log_level = "ERROR" then
        (COUT_ dbg errSuffix openOk log_level func line ts formatted s).stdout else []) := by
  refine ⟨rfl, ?_, ?_⟩ <;>
  · unfold COUT_
    by_cases h : log_level = "ERROR" <;> simp [h]

/-- C5: the path resolver maps a severity to the fixed base directory
joined with `<SEVERITY>.log`; the drain loops route a rendered line back
to exactly its own severity; and a synchronous write changes no file
other than the severity's own file. -/
theorem c5_level_routing (level : String) (dbg : Bool)
    (errSuffix ts func body formatted : String) (line : Nat)
    (openOk : String → Bool) (s : LogState) (p : String)
    (hmem : level ∈ severities) (hp : p ≠ getLogFilePath level) :
    getLogFilePath level = LOG_OUTPUT_PATH ++ "/" ++ level ++ ".log" ∧
    extractLevel (renderLine dbg level ts func line body) = level ∧
    (COUT_ dbg errSuffix openOk level func line ts formatted s).state.files p = s.files p := by
  refine ⟨rfl, ?_, ?_⟩
  · apply extractLevel_render
    simp [severities] at hmem
    rcases hmem with rfl | rfl | rfl | rfl | rfl <;> decide
  · unfold COUT_
    by_cases h : openOk (getLogFilePath level) = true <;> simp [h, hp]

/-- Witness for C5: a WARN line resolves to `./output/WARN.log`, is
routed back to WARN by the level extraction, and a WARN call leaves
`./output/ERROR.log` untouched. -/
theorem c5_witness :
    ("WARN" ∈ severities ∧ "./output/ERROR.log" ≠ getLogFilePath "WARN") ∧
    (getLogFilePath "WARN" = LOG_OUTPUT_PATH ++ "/" ++ "WARN" ++ ".log" ∧
     extractLevel (renderLine false "WARN" "t" "f" 1 "b") = "WARN" ∧
     (COUT_ false "" (fun _ => true) "WARN" "f" 1 "t" "m" initState).state.files
       "./output/ERROR.log" = initState.files "./output/ERROR.log") :=
  ⟨⟨by decide, by decide⟩,
   c5_level_routing "WARN" false "" "t" "f" "b" "m" 1 (fun _ => true) initState
     "./output/ERROR.log" (by decide) (by decide)⟩

/-- C6: the rendered line is
`"[SEVERITY] [timestamp] (function:line) - body\n"` in debug builds and
`"[SEVERITY] [timestamp] - body\n"` otherwise, where the body is the
formatted (buffer-bounded, and in debug error paths errno-enriched)
message. -/
theorem c6_render_template (dbg : Bool) (errSuffix : String) (openOk : String → Bool)
    (log_level func : String) (line : Nat) (ts formatted : String) (s : LogState) :
    (COUT_ dbg errSuffix openOk log_level func line ts formatted s).stdout =
      [if dbg then
        "[" ++ log_level ++ "] [" ++ ts ++ "] (" ++ func ++ ":" ++ toString line ++ ") - " ++
          cbody dbg log_level errSuffix formatted ++ "\n"
       else
        "[" ++ log_level ++ "] [" ++ ts ++ "] - " ++ cbody dbg log_level errSuffix formatted ++ "\n"] := by
  cases dbg <;> rfl

/-- C7 counterexample: with two queued entries the consumer's trace
performs a file write before the second pop and is not the batch trace,
so the loop does not drain the whole queue under the lock into a local
batch before persisting. -/
theorem c7_counterexample :
    noPopAfterWrite (logThreadIterTrace ["[INFO] a\n", "[WARN] b\n"]) = false ∧
    logThreadIterTrace ["[INFO] a\n", "[WARN] b\n"] ≠
      batchIterTrace ["[INFO] a\n", "[WARN] b\n"] := by decide

/-- C7 amended: each wake of the consumer waits while the queue is empty
and the running flag is true, then pops entries one at a time under the
lock, releasing the lock around each entry's file write, persisting the
entries in FIFO order to their per-severity files with the lock never
held during file I/O. -/
theorem c7_per_entry_drain (q : List String) (r : Bool) :
    writeList (logThreadIterTrace q) = (q.map fun e => (getLogFilePath (extractLevel e), e)) ∧
    writesUnlocked false (logThreadIterTrace q) = true ∧
    (wakePredicate q r = false ↔ (q = [] ∧ r = true)) := by
  refine ⟨writeList_drain q, writesUnlocked_drain q, ?_⟩
  cases r <;> cases q <;> simp [wakePredicate]

/-- C8: `stopLogThread` is idempotent; a second shutdown is a no-op and
leaves exactly the subsystem state, including all file contents, of a
single shutdown. -/
theorem c8_stop_idempotent (openOk : String → Bool) (s : LogState) :
    stopLogThread openOk (stopLogThread openOk s) = stopLogThread openOk s := rfl

/-- C9: a non-FATAL logging call always returns control normally to the
caller, and a failed directory creation or file open makes the call skip
the file write while still returning normally. -/
theorem c9_nonfatal_returns_normally (dbg : Bool) (errSuffix : String) (openOk : String → Bool)
    (log_level func : String) (line : Nat) (ts formatted : String) (s : LogState) (p : String)
    (h : log_level ≠ "FATAL") :
    (COUT_ dbg errSuffix openOk log_level func line ts formatted s).outcome = Outcome.normal ∧
    (openOk (getLogFilePath log_level) = false →
      (COUT_ dbg errSuffix openOk log_level func line ts formatted s).state.files p = s.files p) := by
  constructor
  · unfold COUT_
    simp [h]
  · intro hopen
    unfold COUT_
    simp [hopen]

/-- Witness for C9: an INFO call in an environment where every open
fails still returns normally and writes nothing. -/
theorem c9_witness :
    ("INFO" ≠ "FATAL") ∧
    ((COUT_ false "" (fun _ => false) "INFO" "main" 1 "t" "m" initState).outcome = Outcome.normal ∧
     ((fun _ : String => false) (getLogFilePath "INFO") = false →
       (COUT_ false "" (fun _ => false) "INFO" "main" 1 "t" "m" initState).state.files
         "./output/INFO.log" = initState.files "./output/INFO.log")) :=
  ⟨by decide,
   c9_nonfatal_returns_normally false "" (fun _ => false) "INFO" "main" 1 "t" "m" initState
     "./output/INFO.log" (by decide)⟩

/-- C10: the message body carried into the rendered, persisted and echoed
line is the formatted input truncated to the `vsnprintf` buffer, hence at
most `LLMRC_PRINTD_BUF_SIZE - 1` (4095) characters, including after the
debug-build errno append. -/
theorem c10_body_truncated (dbg : Bool) (errSuffix : String) (openOk : String → Bool)
    (log_level func : String) (line : Nat) (ts formatted : String) (s : LogState) :
    (cbody dbg log_level errSuffix formatted).length ≤ LLMRC_PRINTD_BUF_SIZE - 1 ∧
    (COUT_ dbg errSuffix openOk log_level func line ts formatted s).stdout =
      [renderLine dbg log_level ts func line (cbody dbg log_level errSuffix formatted)] := by
  refine ⟨?_, rfl⟩
  have htr : ∀ (n : Nat) (s' : String), (truncateTo n s').length ≤ n := by
    intro n s'
    show (s'.data.take n).length ≤ n
    exact List.length_take_le n s'.data
  have hlen : ∀ a b : String, (a ++ b).length = a.length + b.length := by
    intro a b
    show (a.data ++ b.data).length = a.data.length + b.data.length
    exact List.length_append a.data b.data
  unfold cbody
  by_cases h : (dbg && (log_level == "ERROR" || log_level == "FATAL")) = true
  · rw [if_pos h]
    unfold appendErr
    rw [hlen]
    have h1 := htr (LLMRC_PRINTD_BUF_SIZE - 1) formatted
    have h2 := htr (LLMRC_PRINTD_BUF_SIZE - 1 -
      (truncateTo (LLMRC_PRINTD_BUF_SIZE - 1) formatted).length) errSuffix
    omega
  · rw [if_neg h]
    exact htr _ _

end logs
